import Mathlib

/-!
Verification of the Night Shift agent (src/agent_gemini.py): a shallow
embedding of its build-verification state machine, tool dispatch, the two
conversation loops (`process_task`, `fix_ci_failure`), the API retry
wrapper (`call_api_with_retry`) and the CI status classification
(`get_pr_status`), together with theorems settling the frozen claims.

External effects (filesystem contents, shell exit codes and output, the
remote model's turns) are supplied as explicit oracle values; the pure
control logic and state transitions are translated directly from the
Python source.
-/

set_option maxHeartbeats 1000000

namespace NightShiftAgent

/-- Configuration constant `REQUIRE_BUILD_VERIFICATION` (line 51 of the
source): build verification is mandatory. -/
def REQUIRE_BUILD_VERIFICATION : Bool := true

/-- Configuration constant `MAX_ITERATIONS = 50` (line 45). -/
def MAX_ITERATIONS : Nat := 50

/-- Configuration constant `MAX_RETRIES = 3` (line 46). -/
def MAX_RETRIES : Nat := 3

/-- Configuration constant `RETRY_BASE_DELAY = 2` seconds (line 48). -/
def RETRY_BASE_DELAY : Nat := 2

/-- Lower-casing of a string, character by character, embedding Python's
`str.lower()` for the ASCII command strings the agent classifies. -/
def strToLower (s : String) : String := String.mk (s.toList.map Char.toLower)

/-- Python's substring test `sub in s`. -/
def strContainsSub (s sub : String) : Bool := decide (sub.toList <:+: s.toList)

/-- Python's slice `s[-n:]`: the last `n` characters of `s` (the whole
string when it is shorter), for `n > 0`. -/
def lastChars (n : Nat) (s : String) : String :=
  String.mk (s.toList.drop (s.toList.length - n))

/-- Python's slice `s[:n]`: the first `n` characters of `s`. -/
def firstChars (n : Nat) (s : String) : String := String.mk (s.toList.take n)

/-- The `BuildState` class (lines 81-103): build/test verification flags
and the last captured error excerpt. -/
structure BuildState where
  build_attempted : Bool
  build_passed : Bool
  test_attempted : Bool
  test_passed : Bool
  last_error : Option String
deriving DecidableEq

/-- `BuildState.__init__` (lines 83-88): every flag false, no error. -/
def initBuildState : BuildState :=
  { build_attempted := false, build_passed := false,
    test_attempted := false, test_passed := false, last_error := none }

/-- `BuildState.reset` (lines 90-91): re-runs `__init__`. -/
def BuildState.reset (_bs : BuildState) : BuildState := initBuildState

/-- `BuildState.is_verified` (lines 93-97): unconditionally true when
verification is configured off, else `build_attempted and build_passed`. -/
def BuildState.is_verified (bs : BuildState) : Bool :=
  if !REQUIRE_BUILD_VERIFICATION then true
  else bs.build_attempted && bs.build_passed

/-- The `write_file` tool (lines 121-137). The filesystem outcome is an
oracle: `failure = none` means the write succeeded (the source then clears
`build_passed` and `build_attempted` and returns a confirmation string);
`failure = some e` means the write raised exception text `e` (state is
untouched and an error string is returned). -/
def write_file (path _content : String) (failure : Option String)
    (bs : BuildState) : BuildState × String :=
  match failure with
  | none =>
      ({ bs with build_passed := false, build_attempted := false },
       "Successfully wrote to " ++ path)
  | some e => (bs, "Error writing to file " ++ path ++ ": " ++ e)

/-- Outcome of executing a shell command (`subprocess.run` in lines
175-213): normal completion with an exit code and the combined
stdout+stderr text, a 600-second timeout, or another raised exception. -/
inductive ShellOutcome
  | completed (returncode : Int) (output : String)
  | timeout
  | execError (msg : String)
deriving DecidableEq

/-- Build-command classification (lines 185-186): any of the keywords
occurs in the lower-cased command. -/
def is_build_command (cmd : String) : Bool :=
  ["gradlew", "gradle", "build", "compile", "assemble"].any
    (fun kw => strContainsSub (strToLower cmd) kw)

/-- Test-command classification (lines 187-188). -/
def is_test_command (cmd : String) : Bool :=
  ["test", "check", "verify"].any
    (fun kw => strContainsSub (strToLower cmd) kw)

/-- The `run_shell` tool (lines 168-213): given the command and the
environment's `ShellOutcome`, the updated `BuildState` and the returned
text. On a build- or test-classified command, completion marks the build
attempted; exit code 0 marks it passed (a test command additionally sets
both test flags); non-zero clears `build_passed` and stores the last 2000
characters of output as `last_error`. Timeouts and exceptions leave the
state untouched. -/
def run_shell (command : String) (outcome : ShellOutcome) (bs : BuildState) :
    BuildState × String :=
  match outcome with
  | .completed rc out =>
      let bs1 :=
        if is_build_command command || is_test_command command then
          let bs2 := { bs with build_attempted := true }
          if rc = 0 then
            let bs3 := { bs2 with build_passed := true }
            if is_test_command command then
              { bs3 with test_attempted := true, test_passed := true }
            else bs3
          else
            { bs2 with build_passed := false,
                       last_error := some (lastChars 2000 out) }
        else bs
      if rc ≠ 0 then
        (bs1, "Command failed with exit code " ++ toString rc ++ ":\n" ++ out)
      else (bs1, out)
  | .timeout => (bs, "Error: Command timed out after 600 seconds")
  | .execError e => (bs, "Error executing command: " ++ e)

/-- One CI check record as parsed from `gh pr checks --json
name,state,conclusion` (line 495): its `state` string and optional
`conclusion` string (the `name` field is never consulted). -/
structure CheckStatus where
  state : String
  conclusion : Option String
deriving DecidableEq

/-- The three classification flags `get_pr_status` computes (lines
500-506). -/
structure PRStatus where
  all_passed : Bool
  any_failed : Bool
  pending : Bool
deriving DecidableEq

/-- The pure classification inside `get_pr_status` (lines 503-505):
`all_passed` ranges over the completed checks only, `any_failed` over any
check with conclusion "failure", `pending` over any check whose state is
"pending", "queued" or "in_progress". -/
def get_pr_status_checks (checks : List CheckStatus) : PRStatus :=
  { all_passed := (checks.filter (fun c => c.state == "completed")).all
      (fun c => c.conclusion == some "success")
    any_failed := checks.any (fun c => c.conclusion == some "failure")
    pending := checks.any (fun c =>
      c.state == "pending" || c.state == "queued" || c.state == "in_progress") }

/-- How one poll of the CI monitor loop (lines 934-950) acts on the PR
status: an indeterminate query, still-pending, terminal success, a failure
triggering a fix attempt, or none of these. -/
inductive CIPollAction
  | indeterminate
  | stillPending
  | passed
  | failed
  | noAction
deriving DecidableEq

/-- The monitor's per-poll classification order (lines 936-948): a failed
query, then `pending`, then `all_passed`, then `any_failed`. -/
def ciClassify (query : Option (List CheckStatus)) : CIPollAction :=
  match query with
  | none => .indeterminate
  | some checks =>
      let st := get_pr_status_checks checks
      if st.pending then .stillPending
      else if st.all_passed then .passed
      else if st.any_failed then .failed
      else .noAction

/-- The check set of the spec's example: one in-progress check and one
completed check that concluded successfully. -/
def exampleChecks : List CheckStatus :=
  [ { state := "in_progress", conclusion := none },
    { state := "completed", conclusion := some "success" } ]

/-- The body of `call_api_with_retry`'s `for attempt in range(...)` loop
(lines 289-306), with the remote call's outcomes supplied as an oracle
indexed by attempt number. `remaining` is how many attempts of the range
are left (`maxRetries - attempt`). Returns the sleep durations performed
(in order), the number of times the operation was called, and the final
outcome: `some (.ok v)` for a returned response, `some (.error e)` for the
re-raised last failure, `none` when the range was empty. -/
def retryAux (outcomes : Nat → Except String α) (baseDelay : Nat) :
    (remaining attempt : Nat) → List Nat × Nat × Option (Except String α)
  | 0, _ => ([], 0, none)
  | r + 1, attempt =>
      match outcomes attempt with
      | .ok v => ([], 1, some (.ok v))
      | .error e =>
          if r = 0 then ([], 1, some (.error e))
          else
            let res := retryAux outcomes baseDelay r (attempt + 1)
            (baseDelay * 2 ^ attempt :: res.1, res.2.1 + 1, res.2.2)

/-- `call_api_with_retry` (lines 287-306) at the source's constants
`MAX_RETRIES = 3`, `RETRY_BASE_DELAY = 2`. -/
def call_api_with_retry (outcomes : Nat → Except String α) :
    List Nat × Nat × Option (Except String α) :=
  retryAux outcomes RETRY_BASE_DELAY MAX_RETRIES 0

/-- One requested tool call fused with the environment's response to it.
`readFileEv`/`listFilesEv` carry the string the tool returned (file
contents, a listing, or an error string -- the loops treat these alike).
`writeFileEv` and `runShellEv` carry the outcome their state transition
depends on. `unknownTool` is a call whose name is not one of the four
registered tools (`available_functions.get` returns `None`). `badArgs` is
a call whose argument string fails `json.loads`, with the decode error's
text. `execRaises` is a call whose arguments parse as JSON but whose
dispatch `function_to_call(**function_args)` raises (for example a JSON
array, or an object whose keys do not match the tool's parameters), with
the exception's text. -/
inductive ToolEvent
  | readFileEv (path result : String)
  | writeFileEv (path content : String) (failure : Option String)
  | listFilesEv (path result : String)
  | runShellEv (command : String) (outcome : ShellOutcome)
  | unknownTool (name : String)
  | badArgs (name err : String)
  | execRaises (name err : String)
deriving DecidableEq

/-- One entry of the conversation transcript (`messages` in the source):
the system prompt, a user turn, an assistant turn with its requested tool
calls, or a tool-result turn keyed by the call id and tool name. -/
inductive Message
  | system (content : String)
  | user (content : String)
  | assistant (content : String) (calls : List (String × ToolEvent))
  | tool (tool_call_id name content : String)
deriving DecidableEq

/-- One assistant turn as returned by the remote model: its text and the
requested tool calls (call id paired with the call's event). -/
structure AssistantTurn where
  content : String
  calls : List (String × ToolEvent)
deriving DecidableEq

/-- Truncation of a tool result before it is appended (lines 628-629 and
738-739): over 10000 characters becomes the first 5000, a marker, and the
last 5000. -/
def truncateResult (s : String) : String :=
  if s.length > 10000 then
    firstChars 5000 s ++ "\n\n... [truncated] ...\n\n" ++ lastChars 5000 s
  else s

/-- How `process_task`'s inner loop (lines 604-636) handles one requested
tool call: the updated build state and the list of appended tool-result
turns, or `none` when an unhandled exception propagates. An unknown tool
is skipped with `continue` (nothing appended); a JSON argument error
appends an error turn prefixed "Error: Invalid JSON arguments: "; an
exception raised by the dispatch itself is not caught. -/
def processTaskHandleCall (id : String) (evt : ToolEvent) (bs : BuildState) :
    Option (BuildState × List Message) :=
  match evt with
  | .unknownTool _ => some (bs, [])
  | .badArgs n e =>
      some (bs, [Message.tool id n ("Error: Invalid JSON arguments: " ++ e)])
  | .execRaises _ _ => none
  | .readFileEv _ res =>
      some (bs, [Message.tool id "read_file" (truncateResult res)])
  | .writeFileEv p c failure =>
      let r := write_file p c failure bs
      some (r.1, [Message.tool id "write_file" (truncateResult r.2)])
  | .listFilesEv _ res =>
      some (bs, [Message.tool id "list_files" (truncateResult res)])
  | .runShellEv cmd outc =>
      let r := run_shell cmd outc bs
      some (r.1, [Message.tool id "run_shell" (truncateResult r.2)])

/-- How `fix_ci_failure`'s inner loop (lines 727-753) handles one
requested tool call. An unknown tool is likewise skipped silently, but
the whole parse-dispatch-truncate-append block sits in one
`try/except Exception`: a JSON argument error or an exception raised by
the dispatch both append an error turn "Error: " ++ e instead of
propagating. -/
def fixCiHandleCall (id : String) (evt : ToolEvent) (bs : BuildState) :
    Option (BuildState × List Message) :=
  match evt with
  | .unknownTool _ => some (bs, [])
  | .badArgs n e => some (bs, [Message.tool id n ("Error: " ++ e)])
  | .execRaises n e => some (bs, [Message.tool id n ("Error: " ++ e)])
  | .readFileEv _ res =>
      some (bs, [Message.tool id "read_file" (truncateResult res)])
  | .writeFileEv p c failure =>
      let r := write_file p c failure bs
      some (r.1, [Message.tool id "write_file" (truncateResult r.2)])
  | .listFilesEv _ res =>
      some (bs, [Message.tool id "list_files" (truncateResult res)])
  | .runShellEv cmd outc =>
      let r := run_shell cmd outc bs
      some (r.1, [Message.tool id "run_shell" (truncateResult r.2)])

/-- Sequential execution of one turn's requested tool calls in request
order, threading the build state and appending each call's result turns;
`none` propagates an unhandled exception. -/
def processCalls
    (handler : String → ToolEvent → BuildState → Option (BuildState × List Message)) :
    BuildState → List Message → List (String × ToolEvent) →
    Option (BuildState × List Message)
  | bs, msgs, [] => some (bs, msgs)
  | bs, msgs, (id, evt) :: rest =>
      match handler id evt bs with
      | none => none
      | some (bs', newMsgs) => processCalls handler bs' (msgs ++ newMsgs) rest

/-- The corrective user turn `process_task` appends when the model stops
requesting tools while the build is unverified (lines 649-656). -/
def processCorrective : String :=
  "SYSTEM: Build has NOT been verified. You MUST run './gradlew build' to verify your changes compile. Do not finish until the build passes."

/-- The corrective user turn `fix_ci_failure` appends in the same
situation (lines 760-763). -/
def fixCorrective : String :=
  "SYSTEM: Build NOT verified. Run './gradlew build' now."

/-- Result of one pass of a conversation loop: continue in the running
state with updated build state and transcript, terminate returning a
boolean, or propagate an unhandled exception. -/
inductive StepResult
  | running (bs : BuildState) (msgs : List Message)
  | done (success : Bool)
  | crashed
deriving DecidableEq

/-- One pass of `process_task`'s loop body (lines 588-659). The remote
call's result is an oracle: `.error` is a `call_api_with_retry` failure
after exhaustion (the loop returns False); `.ok` is the assistant turn,
which is appended. Tool calls are executed sequentially; a turn with no
tool calls terminates with True when the build state is verified, else
(verification being required) appends the corrective user turn and
continues. -/
def processTaskStep (turn : Except String AssistantTurn) (bs : BuildState)
    (msgs : List Message) : StepResult :=
  match turn with
  | .error _ => .done false
  | .ok t =>
      let msgs1 := msgs ++ [Message.assistant t.content t.calls]
      if t.calls.isEmpty then
        if bs.is_verified then .done true
        else if REQUIRE_BUILD_VERIFICATION then
          .running bs (msgs1 ++ [Message.user processCorrective])
        else .done true
      else
        match processCalls processTaskHandleCall bs msgs1 t.calls with
        | none => .crashed
        | some (bs', msgs') => .running bs' msgs'

/-- One pass of `fix_ci_failure`'s loop body (lines 711-765): the same
shape with its own tool-call handler and corrective wording, and no
configuration test before appending the corrective turn. -/
def fixCiStep (turn : Except String AssistantTurn) (bs : BuildState)
    (msgs : List Message) : StepResult :=
  match turn with
  | .error _ => .done false
  | .ok t =>
      let msgs1 := msgs ++ [Message.assistant t.content t.calls]
      if t.calls.isEmpty then
        if bs.is_verified then .done true
        else .running bs (msgs1 ++ [Message.user fixCorrective])
      else
        match processCalls fixCiHandleCall bs msgs1 t.calls with
        | none => .crashed
        | some (bs', msgs') => .running bs' msgs'

/-- Terminal outcome of a whole loop run: the boolean the function
returns, or an exception propagating out of it. -/
inductive LoopResult
  | success
  | failure
  | crashed
deriving DecidableEq

/-- The `while iteration < MAX_ITERATIONS` loop of `process_task`
(lines 586-662), run with `fuel` iterations remaining and `iter` passes
already executed; returns the terminal outcome and the total number of
passes executed. Exhausting the ceiling returns failure (line 662). -/
def processTaskLoop (oracle : Nat → Except String AssistantTurn) :
    Nat → Nat → BuildState → List Message → LoopResult × Nat
  | 0, iter, _, _ => (LoopResult.failure, iter)
  | fuel + 1, iter, bs, msgs =>
      match processTaskStep (oracle iter) bs msgs with
      | .done true => (LoopResult.success, iter + 1)
      | .done false => (LoopResult.failure, iter + 1)
      | .crashed => (LoopResult.crashed, iter + 1)
      | .running bs' msgs' => processTaskLoop oracle fuel (iter + 1) bs' msgs'

/-- The `while iteration < MAX_ITERATIONS` loop of `fix_ci_failure`
(lines 709-766): the same bounded iteration shape, stepping with
`fixCiStep`, with the same exhaustion behaviour (line 766 returns
False). -/
def fixCiLoop (oracle : Nat → Except String AssistantTurn) :
    Nat → Nat → BuildState → List Message → LoopResult × Nat
  | 0, iter, _, _ => (LoopResult.failure, iter)
  | fuel + 1, iter, bs, msgs =>
      match fixCiStep (oracle iter) bs msgs with
      | .done true => (LoopResult.success, iter + 1)
      | .done false => (LoopResult.failure, iter + 1)
      | .crashed => (LoopResult.crashed, iter + 1)
      | .running bs' msgs' => fixCiLoop oracle fuel (iter + 1) bs' msgs'

/-- `process_task` (lines 549-662): reset the build state, install the
system prompt (an oracle string embedding the architecture guide and file
listing) and the user turn "TASK: ...", then run the bounded loop with
`MAX_ITERATIONS` fuel from iteration 0. -/
def process_task (systemPrompt taskText : String)
    (oracle : Nat → Except String AssistantTurn) : LoopResult × Nat :=
  processTaskLoop oracle MAX_ITERATIONS 0 initBuildState
    [Message.system systemPrompt, Message.user ("TASK: " ++ taskText)]

/-- `fix_ci_failure` (lines 665-766): reset the build state, install the
system prompt (an oracle string embedding the CI failure information) and
its fixed user turn, then run the bounded loop with the same
`MAX_ITERATIONS` fuel from iteration 0. -/
def fix_ci_failure (systemPrompt : String)
    (oracle : Nat → Except String AssistantTurn) : LoopResult × Nat :=
  fixCiLoop oracle MAX_ITERATIONS 0 initBuildState
    [Message.system systemPrompt,
     Message.user "Please fix the CI failures described above."]

/-- An event whose handling in `process_task` does not raise: everything
except a dispatch that throws (`execRaises`). -/
def nonRaisingEvent : ToolEvent → Bool
  | .execRaises _ _ => false
  | _ => true

/-- An event handled identically (appended turns and state included) by
both loops: everything except the two error cases whose treatment
differs. -/
def benignEvent : ToolEvent → Bool
  | .badArgs _ _ => false
  | .execRaises _ _ => false
  | _ => true

/-- A remote-turn outcome all of whose requested calls (possibly none)
are benign: a remote failure, a tool-free turn, or a tool-requesting turn
with no JSON argument error and no raising dispatch. -/
def benignTurn : Except String AssistantTurn → Bool
  | .ok t => t.calls.all (fun c => benignEvent c.2)
  | .error _ => true

/-- A remote-turn outcome that requests at least one tool call. -/
def turnRequestsTools : Except String AssistantTurn → Bool
  | .ok t => !t.calls.isEmpty
  | .error _ => false

/-- A remote-turn outcome that requests at least one tool call, none of
whose dispatches raises. -/
def toolTurnNoRaise : Except String AssistantTurn → Bool
  | .ok t => !t.calls.isEmpty && t.calls.all (fun c => nonRaisingEvent c.2)
  | .error _ => false

/-- An oracle whose every turn requests a single tool call whose dispatch
raises a TypeError (arguments that parse as JSON but are not a matching
keyword-argument object). -/
def crashOracle : Nat → Except String AssistantTurn :=
  fun _ => .ok { content := "",
                 calls := [("call_1", ToolEvent.execRaises "write_file" "TypeError")] }

/-- An oracle whose every turn requests one benign `list_files` call. -/
def steadyOracle : Nat → Except String AssistantTurn :=
  fun _ => .ok { content := "listing",
                 calls := [("call_1", ToolEvent.listFilesEv "." "README.md")] }

/-- The invariant `build_passed implies build_attempted`, as a boolean
predicate on `BuildState`. -/
def buildInv (bs : BuildState) : Bool := !bs.build_passed || bs.build_attempted

/-- The build states reachable from a reset through the state-mutating
operations: `reset`, `write_file` with any outcome, and `run_shell` with
any command and outcome. -/
inductive ReachableBS : BuildState → Prop
  | init : ReachableBS initBuildState
  | reset (bs : BuildState) : ReachableBS bs → ReachableBS bs.reset
  | write (p c : String) (failure : Option String) (bs : BuildState) :
      ReachableBS bs → ReachableBS (write_file p c failure bs).1
  | shell (cmd : String) (outc : ShellOutcome) (bs : BuildState) :
      ReachableBS bs → ReachableBS (run_shell cmd outc bs).1

/-! Helper lemmas shared by the claim theorems. -/

/-- Characterisation of the embedded substring test. -/
theorem strContainsSub_iff (s sub : String) :
    strContainsSub s sub = true ↔ sub.toList <:+: s.toList := by
  simp [strContainsSub]

/-- The character list of a lower-cased string. -/
theorem strToLower_toList (s : String) :
    (strToLower s).toList = s.toList.map Char.toLower := rfl

/-- Lower-casing preserves the substring relation. -/
theorem isInfix_map_toLower {l₁ l₂ : List Char} (h : l₁ <:+: l₂) :
    l₁.map Char.toLower <:+: l₂.map Char.toLower := by
  obtain ⟨s, t, rfl⟩ := h
  exact ⟨s.map Char.toLower, t.map Char.toLower, by simp⟩

/-- A command containing "gradlew build" is classified as a build command:
its lower-cased form still contains the keyword "gradlew". -/
theorem gradlew_build_is_build_command (cmd : String)
    (h : "gradlew build".toList <:+: cmd.toList) :
    is_build_command cmd = true := by
  have h1 : ("gradlew build".toList.map Char.toLower) <:+: (strToLower cmd).toList := by
    rw [strToLower_toList]
    exact isInfix_map_toLower h
  have h2 : "gradlew".toList <:+: "gradlew build".toList.map Char.toLower := by decide
  have h3 : "gradlew".toList <:+: (strToLower cmd).toList := h2.trans h1
  simp only [is_build_command, List.any_eq_true]
  exact ⟨"gradlew", by simp, by rw [strContainsSub_iff]; exact h3⟩

/-- The build state produced by a completed shell command, with the
source's nested conditionals flattened. -/
theorem run_shell_completed_fst (cmd : String) (rc : Int) (out : String)
    (bs : BuildState) :
    (run_shell cmd (ShellOutcome.completed rc out) bs).1 =
      if is_build_command cmd || is_test_command cmd then
        if rc = 0 then
          if is_test_command cmd then
            { bs with build_attempted := true, build_passed := true,
                      test_attempted := true, test_passed := true }
          else { bs with build_attempted := true, build_passed := true }
        else
          { bs with build_attempted := true, build_passed := false,
                    last_error := some (lastChars 2000 out) }
      else bs := by
  by_cases hc : (is_build_command cmd || is_test_command cmd) = true
  · by_cases hrc : rc = 0
    · by_cases ht : is_test_command cmd = true
      · simp [run_shell, hc, hrc, ht]
      · simp [run_shell, hc, hrc, ht]
    · simp [run_shell, hc, hrc]
  · simp [run_shell, hc]
    split <;> rfl

/-- A non-raising tool-call event is handled in `process_task` without an
exception. -/
theorem handleCall_nonRaising_some (id : String) (evt : ToolEvent)
    (bs : BuildState) (h : nonRaisingEvent evt = true) :
    ∃ r, processTaskHandleCall id evt bs = some r := by
  cases evt <;> first | exact ⟨_, rfl⟩ | simp [nonRaisingEvent] at h

/-- On benign events the two loops' tool-call handlers return identical
results: same resulting build state and same appended turns. -/
theorem handlers_agree_benign (id : String) (evt : ToolEvent)
    (bs : BuildState) (h : benignEvent evt = true) :
    processTaskHandleCall id evt bs = fixCiHandleCall id evt bs := by
  cases evt <;> first | rfl | simp [benignEvent] at h

/-- Processing the same benign call list from the same build state in the
two loops yields the same resulting build state (without an exception),
whatever transcripts the calls are appended to. -/
theorem processCalls_benign_pair :
    ∀ (calls : List (String × ToolEvent)),
      calls.all (fun c => benignEvent c.2) = true →
      ∀ (bs : BuildState) (msgs1 msgs2 : List Message),
        ∃ bs' m1 m2,
          processCalls processTaskHandleCall bs msgs1 calls = some (bs', m1)
        ∧ processCalls fixCiHandleCall bs msgs2 calls = some (bs', m2) := by
  intro calls
  induction calls with
  | nil => intro _ bs msgs1 msgs2; exact ⟨bs, msgs1, msgs2, rfl, rfl⟩
  | cons c rest ih =>
      intro hall bs msgs1 msgs2
      obtain ⟨cid, cevt⟩ := c
      rw [List.all_cons, Bool.and_eq_true] at hall
      have hben : benignEvent cevt = true := hall.1
      have hnr : nonRaisingEvent cevt = true := by
        cases cevt <;> first | rfl | simp [benignEvent] at hben
      obtain ⟨⟨bs', newMsgs⟩, hr⟩ := handleCall_nonRaising_some cid cevt bs hnr
      have hr2 : fixCiHandleCall cid cevt bs = some (bs', newMsgs) :=
        (handlers_agree_benign cid cevt bs hben).symm.trans hr
      obtain ⟨bs2, m1, m2, h1, h2⟩ :=
        ih hall.2 bs' (msgs1 ++ newMsgs) (msgs2 ++ newMsgs)
      refine ⟨bs2, m1, m2, ?_, ?_⟩
      · simp only [processCalls, hr]; exact h1
      · simp only [processCalls, hr2]; exact h2

/-- On any oracle of benign turns the two loops are the same parameterized
primitive: started from the same build state, any fuel, any iteration
count and any (possibly different) transcripts, they return the same
terminal result after the same number of passes. -/
theorem loops_equiv_benign (oracle : Nat → Except String AssistantTurn)
    (h : ∀ i, benignTurn (oracle i) = true) :
    ∀ (fuel iter : Nat) (bs : BuildState) (msgs1 msgs2 : List Message),
      processTaskLoop oracle fuel iter bs msgs1
        = fixCiLoop oracle fuel iter bs msgs2 := by
  intro fuel
  induction fuel with
  | zero => intro iter bs msgs1 msgs2; rfl
  | succ k ih =>
      intro iter bs msgs1 msgs2
      have hi := h iter
      cases ho : oracle iter with
      | error e =>
          simp only [processTaskLoop, fixCiLoop, ho, processTaskStep, fixCiStep]
      | ok t =>
          rw [ho] at hi
          by_cases hempty : t.calls.isEmpty = true
          · by_cases hv : bs.is_verified = true
            · simp only [processTaskLoop, fixCiLoop, ho, processTaskStep,
                fixCiStep, hempty, hv, if_true]
            · rw [Bool.not_eq_true] at hv
              simp only [processTaskLoop, fixCiLoop, ho, processTaskStep,
                fixCiStep, hempty, hv, if_true, Bool.false_eq_true, if_false,
                REQUIRE_BUILD_VERIFICATION]
              exact ih (iter + 1) bs _ _
          · rw [Bool.not_eq_true] at hempty
            have hall : t.calls.all (fun c => benignEvent c.2) = true := by
              simpa [benignTurn] using hi
            obtain ⟨bs', m1, m2, h1, h2⟩ :=
              processCalls_benign_pair t.calls hall bs
                (msgs1 ++ [Message.assistant t.content t.calls])
                (msgs2 ++ [Message.assistant t.content t.calls])
            simp only [processTaskLoop, fixCiLoop, ho, processTaskStep,
              fixCiStep, hempty, Bool.false_eq_true, if_false, h1, h2]
            exact ih (iter + 1) bs' m1 m2

/-! Claim C1: the CI status classification. -/

/-- C1 (counterexample): for a check set with one `in_progress` check and
one completed `success` check, `get_pr_status` reports `pending = true`
and `any_failed = false` as the claim says, but `all_passed = true`, not
`false`: the code's `all_passed` ranges over completed checks only and
does not require the absence of pending checks. -/
theorem get_pr_status_example_cex :
    (get_pr_status_checks exampleChecks).pending = true
  ∧ (get_pr_status_checks exampleChecks).all_passed = true
  ∧ (get_pr_status_checks exampleChecks).any_failed = false := by
  decide

/-- C1 (amended): `pending` holds iff some check is queued, pending or in
progress; `any_failed` holds iff some check concluded "failure";
`all_passed` holds iff every *completed* check concluded "success"
(irrespective of pending checks); and the CI monitor's poll loop reaches
its terminal-success action only when no check is pending and
`all_passed` holds, because it tests `pending` first. -/
theorem get_pr_status_classification (checks : List CheckStatus) :
    ((get_pr_status_checks checks).pending = true
        ↔ ∃ c ∈ checks,
            c.state = "pending" ∨ c.state = "queued" ∨ c.state = "in_progress")
  ∧ ((get_pr_status_checks checks).any_failed = true
        ↔ ∃ c ∈ checks, c.conclusion = some "failure")
  ∧ ((get_pr_status_checks checks).all_passed = true
        ↔ ∀ c ∈ checks, c.state = "completed" → c.conclusion = some "success")
  ∧ (ciClassify (some checks) = CIPollAction.passed
        ↔ (get_pr_status_checks checks).pending = false
          ∧ (get_pr_status_checks checks).all_passed = true) := by
  refine ⟨?_, ?_, ?_, ?_⟩
  · simp [get_pr_status_checks, List.any_eq_true, or_assoc]
  · simp [get_pr_status_checks, List.any_eq_true]
  · simp [get_pr_status_checks, List.all_eq_true, List.mem_filter]
    constructor
    · intro hall c hmem hcompl
      rcases hall c hmem with h | h
      · exact absurd hcompl h
      · exact h
    · intro hall c hmem
      by_cases h : c.state = "completed"
      · exact Or.inr (hall c hmem h)
      · exact Or.inl h
  · cases hp : (get_pr_status_checks checks).pending
    · cases ha : (get_pr_status_checks checks).all_passed
      · cases hf : (get_pr_status_checks checks).any_failed <;>
          simp [ciClassify, hp, ha, hf]
      · simp [ciClassify, hp, ha]
    · simp [ciClassify, hp]

/-! Claim C6: a successful write invalidates build verification. -/

/-- C6: for every prior build state and every path/content pair, a
successful `write_file` (outcome `none`) leaves `build_attempted = false`
and `build_passed = false`, regardless of the prior flags. -/
theorem write_file_invalidates_build (path content : String) (bs : BuildState) :
    (write_file path content none bs).1.build_attempted = false
  ∧ (write_file path content none bs).1.build_passed = false := by
  simp [write_file]

/-! Claim C7: run_shell on a gradlew build command. -/

/-- C7: for every command containing "gradlew build", a completed
`run_shell` with exit code 0 sets `build_attempted = true` and
`build_passed = true`; with any non-zero exit code it sets
`build_attempted = true`, `build_passed = false`, and `last_error` to the
last 2000 characters of the combined stdout+stderr output. -/
theorem run_shell_gradlew_build (cmd out : String) (bs : BuildState)
    (h : "gradlew build".toList <:+: cmd.toList) :
    ((run_shell cmd (ShellOutcome.completed 0 out) bs).1.build_attempted = true
      ∧ (run_shell cmd (ShellOutcome.completed 0 out) bs).1.build_passed = true)
  ∧ ∀ rc : Int, rc ≠ 0 →
      ((run_shell cmd (ShellOutcome.completed rc out) bs).1.build_attempted = true
        ∧ (run_shell cmd (ShellOutcome.completed rc out) bs).1.build_passed = false
        ∧ (run_shell cmd (ShellOutcome.completed rc out) bs).1.last_error
            = some (lastChars 2000 out)) := by
  have hb := gradlew_build_is_build_command cmd h
  refine ⟨?_, ?_⟩
  · by_cases ht : is_test_command cmd = true <;>
      simp [run_shell_completed_fst, hb, ht]
  · intro rc hrc
    simp [run_shell_completed_fst, hb, hrc]

/-- C7 witness: the concrete command "./gradlew build" with exit code 0
and with exit code 1. -/
theorem run_shell_gradlew_build_witness :
    ((run_shell "./gradlew build" (ShellOutcome.completed 0 "BUILD OK")
        initBuildState).1.build_attempted = true
      ∧ (run_shell "./gradlew build" (ShellOutcome.completed 0 "BUILD OK")
          initBuildState).1.build_passed = true)
  ∧ ((run_shell "./gradlew build" (ShellOutcome.completed 1 "BUILD FAILED")
        initBuildState).1.build_attempted = true
      ∧ (run_shell "./gradlew build" (ShellOutcome.completed 1 "BUILD FAILED")
          initBuildState).1.build_passed = false
      ∧ (run_shell "./gradlew build" (ShellOutcome.completed 1 "BUILD FAILED")
          initBuildState).1.last_error = some (lastChars 2000 "BUILD FAILED")) :=
  ⟨(run_shell_gradlew_build "./gradlew build" "BUILD OK" initBuildState (by decide)).1,
   (run_shell_gradlew_build "./gradlew build" "BUILD FAILED" initBuildState
      (by decide)).2 1 (by decide)⟩

/-! Claim C8: the retry wrapper's schedule. -/

/-- C8: when all three attempts fail, `call_api_with_retry` (with
`MAX_RETRIES = 3`, `RETRY_BASE_DELAY = 2`) calls the operation exactly 3
times, sleeps exactly 2 seconds before the second attempt and 4 before the
third, and re-raises the third failure with no further wait. -/
theorem retry_exhaustion_schedule (outcomes : Nat → Except String α)
    (e0 e1 e2 : String) (h0 : outcomes 0 = .error e0)
    (h1 : outcomes 1 = .error e1) (h2 : outcomes 2 = .error e2) :
    call_api_with_retry outcomes = ([2, 4], 3, some (.error e2)) := by
  unfold call_api_with_retry MAX_RETRIES RETRY_BASE_DELAY
  norm_num [retryAux, h0, h1, h2]

/-- C8 witness: a concrete operation failing on every attempt. -/
theorem retry_exhaustion_schedule_witness :
    call_api_with_retry (fun _ => (Except.error "boom" : Except String Unit))
      = ([2, 4], 3, some (Except.error "boom")) :=
  retry_exhaustion_schedule (fun _ => Except.error "boom") "boom" "boom" "boom"
    rfl rfl rfl

/-! Claim C9: the invariant buildPassed implies buildAttempted. -/

/-- C9: `build_passed` implies `build_attempted` holds of the reset state
and is preserved by `reset`, by `write_file` with any outcome, and by
`run_shell` with any command and any outcome. -/
theorem build_inv_preserved :
    buildInv initBuildState = true
  ∧ (∀ bs : BuildState, buildInv bs.reset = true)
  ∧ (∀ (path content : String) (failure : Option String) (bs : BuildState),
       buildInv bs = true → buildInv (write_file path content failure bs).1 = true)
  ∧ (∀ (cmd : String) (outc : ShellOutcome) (bs : BuildState),
       buildInv bs = true → buildInv (run_shell cmd outc bs).1 = true) := by
  refine ⟨rfl, fun bs => rfl, ?_, ?_⟩
  · intro p c failure bs h
    cases failure with
    | none => rfl
    | some e => exact h
  · intro cmd outc bs h
    cases outc with
    | completed rc out =>
        rw [run_shell_completed_fst]
        split_ifs <;> simp_all [buildInv]
    | timeout => exact h
    | execError e => exact h

/-- C9 witness: the invariant instantiated at the reset state and pushed
through a concrete non-classified command. -/
theorem build_inv_preserved_witness :
    buildInv ((run_shell "ls" ShellOutcome.timeout initBuildState).1) = true :=
  build_inv_preserved.2.2.2 "ls" ShellOutcome.timeout initBuildState (by decide)

/-! Claim C10: the test flags move together and a failed test run is not
recorded as attempted. -/

/-- C10: `test_attempted = test_passed` holds in every reachable build
state; a test-classified command with non-zero exit leaves both test
flags exactly as they were, so from the reset state they stay false. -/
theorem test_flags_equal_reachable :
    (∀ bs : BuildState, ReachableBS bs → bs.test_attempted = bs.test_passed)
  ∧ (∀ (bs : BuildState) (cmd out : String) (rc : Int),
       is_test_command cmd = true → rc ≠ 0 →
         (run_shell cmd (ShellOutcome.completed rc out) bs).1.test_attempted
             = bs.test_attempted
       ∧ (run_shell cmd (ShellOutcome.completed rc out) bs).1.test_passed
             = bs.test_passed)
  ∧ (∀ (cmd out : String) (rc : Int), rc ≠ 0 →
         (run_shell cmd (ShellOutcome.completed rc out) initBuildState).1.test_attempted
             = false
       ∧ (run_shell cmd (ShellOutcome.completed rc out) initBuildState).1.test_passed
             = false) := by
  refine ⟨?_, ?_, ?_⟩
  · intro bs hr
    induction hr with
    | init => rfl
    | reset bs _ _ => rfl
    | write p c failure bs _ ih => cases failure <;> exact ih
    | shell cmd outc bs _ ih =>
        cases outc with
        | completed rc out =>
            rw [run_shell_completed_fst]
            split_ifs <;> simp_all
        | timeout => exact ih
        | execError e => exact ih
  · intro bs cmd out rc ht hrc
    refine ⟨?_, ?_⟩ <;> simp [run_shell_completed_fst, ht, hrc]
  · intro cmd out rc hrc
    refine ⟨?_, ?_⟩ <;>
      (simp only [run_shell_completed_fst]; split_ifs <;> simp_all [initBuildState])

/-- C10 witness: a failing test command from the reset state leaves the
test flags equal (and false). -/
theorem test_flags_equal_reachable_witness :
    (run_shell "./gradlew test" (ShellOutcome.completed 1 "2 tests failed")
        initBuildState).1.test_attempted
      = (run_shell "./gradlew test" (ShellOutcome.completed 1 "2 tests failed")
          initBuildState).1.test_passed :=
  test_flags_equal_reachable.1 _
    (ReachableBS.shell "./gradlew test" (ShellOutcome.completed 1 "2 tests failed")
      initBuildState ReachableBS.init)

/-! Claim C2: the two conversation loops as one parameterized primitive. -/

/-- C2 (counterexample): the two loops do not handle requested tool calls
identically. On a JSON argument-parse error the appended error turns
differ in content (beyond the allowed system/corrective wording), and on
a dispatch that raises, `process_task` propagates the exception (no
transition) while `fix_ci_failure` appends an error turn and continues. -/
theorem loops_differ_cex :
    processTaskHandleCall "call_1" (ToolEvent.badArgs "write_file" "Expecting value")
        initBuildState
      ≠ fixCiHandleCall "call_1" (ToolEvent.badArgs "write_file" "Expecting value")
          initBuildState
  ∧ processTaskHandleCall "call_1" (ToolEvent.execRaises "write_file" "TypeError")
        initBuildState
      = none
  ∧ fixCiHandleCall "call_1" (ToolEvent.execRaises "write_file" "TypeError")
        initBuildState
      = some (initBuildState,
          [Message.tool "call_1" "write_file" "Error: TypeError"]) := by
  refine ⟨by decide, rfl, rfl⟩

/-- C2 (amended): the two loops share their tool dispatch, result
truncation, verification gate and iteration ceiling: every tool-call
event other than the two error cases is handled identically by both; a
turn with no tool calls terminates with success in both exactly when the
build state is verified, and when it is unverified both append exactly
one corrective user turn (with their respective wording) and continue;
both loops exhaust their fuel with the same failure result after the
same number of passes; on any oracle of benign turns the two loops make
identical transitions (same terminal result, same pass count) from any
state, and the two entry points, run with the same ceiling
`MAX_ITERATIONS`, return identical outcomes on the same oracle. They
differ in error handling: a JSON argument-parse error is surfaced with
different message text, and a raising dispatch crashes `process_task`
but is surfaced as an error turn by `fix_ci_failure`. -/
theorem loops_shared_core :
    (∀ (id : String) (evt : ToolEvent) (bs : BuildState),
        benignEvent evt = true →
          processTaskHandleCall id evt bs = fixCiHandleCall id evt bs)
  ∧ (∀ (content : String) (bs : BuildState) (msgs : List Message),
        bs.is_verified = true →
          processTaskStep (Except.ok { content := content, calls := [] }) bs msgs
              = StepResult.done true
        ∧ fixCiStep (Except.ok { content := content, calls := [] }) bs msgs
              = StepResult.done true)
  ∧ (∀ (content : String) (bs : BuildState) (msgs : List Message),
        bs.is_verified = false →
          processTaskStep (Except.ok { content := content, calls := [] }) bs msgs
              = StepResult.running bs
                  (msgs ++ [Message.assistant content [], Message.user processCorrective])
        ∧ fixCiStep (Except.ok { content := content, calls := [] }) bs msgs
              = StepResult.running bs
                  (msgs ++ [Message.assistant content [], Message.user fixCorrective]))
  ∧ (∀ (oracle : Nat → Except String AssistantTurn) (iter : Nat)
        (bs : BuildState) (msgs : List Message),
        processTaskLoop oracle 0 iter bs msgs = (LoopResult.failure, iter)
      ∧ fixCiLoop oracle 0 iter bs msgs = (LoopResult.failure, iter))
  ∧ (∀ (oracle : Nat → Except String AssistantTurn),
        (∀ i, benignTurn (oracle i) = true) →
        ∀ (fuel iter : Nat) (bs : BuildState) (msgs1 msgs2 : List Message),
          processTaskLoop oracle fuel iter bs msgs1
            = fixCiLoop oracle fuel iter bs msgs2)
  ∧ (∀ (systemPrompt1 taskText systemPrompt2 : String)
        (oracle : Nat → Except String AssistantTurn),
        (∀ i, benignTurn (oracle i) = true) →
          process_task systemPrompt1 taskText oracle
            = fix_ci_failure systemPrompt2 oracle) := by
  refine ⟨?_, ?_, ?_, ?_, ?_, ?_⟩
  · exact handlers_agree_benign
  · intro content bs msgs h
    constructor <;> simp [processTaskStep, fixCiStep, h]
  · intro content bs msgs h
    constructor <;>
      simp [processTaskStep, fixCiStep, h, REQUIRE_BUILD_VERIFICATION]
  · intro oracle iter bs msgs
    exact ⟨rfl, rfl⟩
  · exact loops_equiv_benign
  · intro sp1 task sp2 oracle h
    simp only [process_task, fix_ci_failure]
    exact loops_equiv_benign oracle h MAX_ITERATIONS 0 initBuildState _ _

/-- C2 witness: a concrete benign event handled identically, the shared
gate terminating both loops on a verified state, and the two entry points
agreeing (failure after the shared ceiling of 50 passes) on a concrete
oracle that forever requests a benign `list_files` call. -/
theorem loops_shared_core_witness :
    processTaskHandleCall "call_1" (ToolEvent.listFilesEv "." "README.md")
        initBuildState
      = fixCiHandleCall "call_1" (ToolEvent.listFilesEv "." "README.md")
          initBuildState
  ∧ processTaskStep (Except.ok { content := "done", calls := [] })
        { initBuildState with build_attempted := true, build_passed := true } []
      = StepResult.done true
  ∧ process_task "You are the Night Shift Agent." "Add a feature." steadyOracle
      = fix_ci_failure "You are the Night Shift Agent." steadyOracle :=
  ⟨loops_shared_core.1 "call_1" (ToolEvent.listFilesEv "." "README.md")
      initBuildState (by decide),
   (loops_shared_core.2.1 "done"
      { initBuildState with build_attempted := true, build_passed := true } []
      (by decide)).1,
   loops_shared_core.2.2.2.2.2 "You are the Night Shift Agent." "Add a feature."
      "You are the Night Shift Agent." steadyOracle (fun _ => rfl)⟩

/-! Claim C3: unknown tool names. -/

/-- C3 (counterexample): a turn requesting one unknown tool leaves the
loop running but appends no tool-result turn at all: the transcript gains
only the assistant turn, with no error message, in both loops. -/
theorem unknown_tool_silent_cex :
    processTaskStep
        (Except.ok { content := "",
                     calls := [("call_1", ToolEvent.unknownTool "frobnicate")] })
        initBuildState []
      = StepResult.running initBuildState
          [Message.assistant "" [("call_1", ToolEvent.unknownTool "frobnicate")]]
  ∧ fixCiStep
        (Except.ok { content := "",
                     calls := [("call_1", ToolEvent.unknownTool "frobnicate")] })
        initBuildState []
      = StepResult.running initBuildState
          [Message.assistant "" [("call_1", ToolEvent.unknownTool "frobnicate")]] := by
  refine ⟨by decide, by decide⟩

/-- C3 (amended): an unknown tool name never terminates either loop and
never raises: in both loops the call is skipped (logged only), no
tool-result turn is appended, the build state is unchanged, and the loop
continues iterating. -/
theorem unknown_tool_skipped (id name content : String) (bs : BuildState)
    (msgs : List Message) :
    processTaskHandleCall id (ToolEvent.unknownTool name) bs = some (bs, [])
  ∧ fixCiHandleCall id (ToolEvent.unknownTool name) bs = some (bs, [])
  ∧ processTaskStep
        (Except.ok { content := content, calls := [(id, ToolEvent.unknownTool name)] })
        bs msgs
      = StepResult.running bs
          (msgs ++ [Message.assistant content [(id, ToolEvent.unknownTool name)]])
  ∧ fixCiStep
        (Except.ok { content := content, calls := [(id, ToolEvent.unknownTool name)] })
        bs msgs
      = StepResult.running bs
          (msgs ++ [Message.assistant content [(id, ToolEvent.unknownTool name)]]) := by
  refine ⟨rfl, rfl, ?_, ?_⟩ <;>
    simp [processTaskStep, fixCiStep, processCalls, processTaskHandleCall,
      fixCiHandleCall]

/-! Claim C4: no success while unverified. -/

/-- C4: with build verification required, a turn requesting no tools while
the build state is unverified makes `process_task` append exactly the
assistant turn and one corrective user turn and return to the running
state; it never terminates with success in that situation. -/
theorem process_task_unverified_continues (content : String) (bs : BuildState)
    (msgs : List Message) (h : bs.is_verified = false) :
    processTaskStep (Except.ok { content := content, calls := [] }) bs msgs
      = StepResult.running bs
          (msgs ++ [Message.assistant content [], Message.user processCorrective])
  ∧ processTaskStep (Except.ok { content := content, calls := [] }) bs msgs
      ≠ StepResult.done true := by
  constructor
  · simp [processTaskStep, h, REQUIRE_BUILD_VERIFICATION]
  · simp [processTaskStep, h, REQUIRE_BUILD_VERIFICATION]

/-- C4 witness: the reset state is unverified, so a tool-free "all done"
turn is answered with the corrective turn. -/
theorem process_task_unverified_continues_witness :
    processTaskStep (Except.ok { content := "All done.", calls := [] })
        initBuildState []
      = StepResult.running initBuildState
          [Message.assistant "All done." [], Message.user processCorrective] :=
  (process_task_unverified_continues "All done." initBuildState [] (by decide)).1

/-! Claim C5: the iteration ceiling. -/

/-- A list of non-raising tool calls is processed without an exception. -/
theorem processCalls_nonRaising :
    ∀ (calls : List (String × ToolEvent)) (bs : BuildState) (msgs : List Message),
      calls.all (fun c => nonRaisingEvent c.2) = true →
      ∃ r, processCalls processTaskHandleCall bs msgs calls = some r := by
  intro calls
  induction calls with
  | nil => exact fun bs msgs _ => ⟨(bs, msgs), rfl⟩
  | cons c rest ih =>
      intro bs msgs hall
      obtain ⟨cid, cevt⟩ := c
      rw [List.all_cons, Bool.and_eq_true] at hall
      obtain ⟨⟨bs', newMsgs⟩, hr⟩ :=
        handleCall_nonRaising_some cid cevt bs hall.1
      simp only [processCalls, hr]
      exact ih bs' (msgs ++ newMsgs) hall.2

/-- A turn that requests tools, none of which raises, keeps
`process_task` in the running state. -/
theorem step_nonRaising_running (t : AssistantTurn) (bs : BuildState)
    (msgs : List Message) (h : toolTurnNoRaise (Except.ok t) = true) :
    ∃ bs' msgs',
      processTaskStep (Except.ok t) bs msgs = StepResult.running bs' msgs' := by
  simp only [toolTurnNoRaise, Bool.and_eq_true, Bool.not_eq_true'] at h
  obtain ⟨hne, hall⟩ := h
  obtain ⟨⟨bs', msgs'⟩, hr⟩ :=
    processCalls_nonRaising t.calls bs
      (msgs ++ [Message.assistant t.content t.calls]) hall
  refine ⟨bs', msgs', ?_⟩
  simp [processTaskStep, hne, hr]

/-- C5 (counterexample): with the ceiling set to 2, an oracle whose every
turn requests a tool call can terminate `process_task` after a single
iteration with a propagating exception instead of reporting failure after
2 iterations: a dispatch whose JSON arguments do not match the tool's
parameters raises and is not caught. -/
theorem iteration_ceiling_crash_cex :
    (∀ i : Nat, turnRequestsTools (crashOracle i) = true)
  ∧ processTaskLoop crashOracle 2 0 initBuildState []
      = (LoopResult.crashed, 1)
  ∧ processTaskLoop crashOracle 2 0 initBuildState []
      ≠ (LoopResult.failure, 2) := by
  refine ⟨fun i => rfl, by decide, by decide⟩

/-- C5 (amended): provided no requested tool call's dispatch raises, a
run in which every remote turn requests tool calls executes exactly the
ceiling's number of passes (never one more) and then reports failure,
regardless of the verification state. -/
theorem process_task_iteration_ceiling
    (oracle : Nat → Except String AssistantTurn)
    (h : ∀ i, toolTurnNoRaise (oracle i) = true) :
    ∀ (n iter : Nat) (bs : BuildState) (msgs : List Message),
      processTaskLoop oracle n iter bs msgs = (LoopResult.failure, iter + n) := by
  intro n
  induction n with
  | zero => intro iter bs msgs; simp [processTaskLoop]
  | succ k ih =>
      intro iter bs msgs
      have h1 := h iter
      cases ho : oracle iter with
      | error e => rw [ho] at h1; exact absurd h1 (by simp [toolTurnNoRaise])
      | ok t =>
          rw [ho] at h1
          obtain ⟨bs', msgs', hs⟩ := step_nonRaising_running t bs msgs h1
          show processTaskLoop oracle (k + 1) iter bs msgs
              = (LoopResult.failure, iter + (k + 1))
          simp only [processTaskLoop, ho, hs]
          rw [ih (iter + 1) bs' msgs']
          congr 1
          omega

/-- C5 witness: an oracle forever requesting a benign `list_files` call,
ceiling 2: failure after exactly 2 iterations. -/
theorem process_task_iteration_ceiling_witness :
    processTaskLoop steadyOracle 2 0 initBuildState []
      = (LoopResult.failure, 2) :=
  process_task_iteration_ceiling steadyOracle (fun _ => rfl) 2 0 initBuildState []

end NightShiftAgent
